import Mathlib

/-!
Verification development for the patient-dashboard backend.

The definitions below are a shallow embedding of the TypeScript/Express
source: the Mongoose appointment schema and its virtuals, the appointment
routes (create / update / cancel / availability), the patient routes
(soft delete, get by id), the user update route, and the dashboard age
aggregation.  Times of day are the `HH:MM` strings stored in the `time`
field; calendar dates and timestamps are epoch values.  JavaScript string
operations used by the source (`split(':')`, `parseInt`, `padStart`) are
embedded at the character-list level so that they can be reasoned about.
-/

/-! ## JavaScript string primitives used by the source -/

/-- `String.prototype.split` with a one-character separator, at the level
of character lists.  `split` always yields one (possibly empty) piece per
separator-free run, including empty leading/trailing pieces. -/
def splitCharsOn (sep : Char) : List Char → List (List Char)
  | [] => [[]]
  | c :: cs =>
    if c = sep then [] :: splitCharsOn sep cs
    else
      match splitCharsOn sep cs with
      | [] => [[c]]
      | p :: ps => (c :: p) :: ps

/-- `time.split(':')` from the source. -/
def splitOnColon (s : String) : List String :=
  (splitCharsOn ':' s.data).map String.mk

/-- `parseInt` / `Number` on a base-10 digit string (the only inputs the
source feeds it are the digit components of validated `HH:MM` times). -/
def parseDigits (l : List Char) : Nat :=
  l.foldl (fun acc c => acc * 10 + (c.toNat - 48)) 0

/-- `parseInt(s)` on a digit string. -/
def parseIntS (s : String) : Nat := parseDigits s.data

/-- `n.toString().padStart(2, '0')` for a natural number. -/
def pad2 (n : Nat) : String :=
  let s := toString n
  if s.length < 2 then "0" ++ s else s

/-- Render an (hour, minute) pair the way the availability loop builds its
slot strings: two-digit-padded components joined by a colon. -/
def fmtTime (hour minute : Nat) : String :=
  pad2 hour ++ ":" ++ pad2 minute

/-- `const [h, m] = t.split(':').map(Number); h * 60 + m` — the wall-clock
minute count of an `HH:MM` string, as computed by both the availability
loop and the `endTime` virtual. -/
def timeToMinutes (t : String) : Nat :=
  match splitOnColon t with
  | h :: m :: _ => parseIntS h * 60 + parseIntS m
  | _ => 0

/-! ## Data model -/

/-- `status` enum of the appointment schema. -/
inductive AptStatus
  | scheduled
  | confirmed
  | inProgress
  | completed
  | cancelled
  | noShow
deriving DecidableEq

/-- `type` enum of the appointment schema. -/
inductive AptType
  | checkup
  | consultation
  | followup
  | emergency
  | procedure
deriving DecidableEq

/-- `role` enum of the user schema. -/
inductive Role
  | admin
  | doctor
  | nurse
  | staff
deriving DecidableEq

/-- `gender` enum of the patient schema. -/
inductive Gender
  | male
  | female
  | other
deriving DecidableEq

/-- Entries of the `prescriptions` array of an appointment. -/
structure Prescription where
  medication : String
  dosage : String
  frequency : String
  duration : String
  instructions : Option String
deriving DecidableEq

/-- An appointment document.  `date` is the stored calendar date (epoch
value of its midnight); `time` is the stored `HH:MM` string; `aptType`
embeds the schema field named `type` (a Lean keyword). -/
structure Appointment where
  id : Nat
  patient : Nat
  doctor : Nat
  aptType : AptType
  status : AptStatus
  date : Nat
  time : String
  duration : Nat
  reason : String
  notes : Option String
  symptoms : List String
  diagnosis : Option String
  treatment : Option String
  prescriptions : List Prescription
  followUpRequired : Bool
  followUpDate : Option Nat
  createdBy : Nat
  updatedBy : Option Nat
deriving DecidableEq

/-- `status: { $nin: ['cancelled', 'no-show'] }` — the filter every
conflict / availability query applies. -/
def activeStatus (s : AptStatus) : Bool :=
  !(s = AptStatus.cancelled || s = AptStatus.noShow)

/-! ## Availability calculator
(`GET /appointments/doctor/:doctorId/availability`) -/

/-- `.select('time duration')` projection of an appointment. -/
structure BookedSlot where
  time : String
  duration : Nat
deriving DecidableEq

/-- `workingHours.start` (9 AM). -/
def workingHoursStart : Nat := 9

/-- `workingHours.end` (5 PM). -/
def workingHoursEnd : Nat := 17

/-- `workingHours.slotDuration` (30 minutes). -/
def slotDurationMin : Nat := 30

/-- The (hour, minute) pairs enumerated by the nested slot loops:
`hour` from 9 to 16, `minute` stepping by 30 below 60. -/
def slotTimes : List (Nat × Nat) :=
  (List.range' workingHoursStart (workingHoursEnd - workingHoursStart)).flatMap
    fun hour =>
      (List.range' 0 (60 / slotDurationMin) slotDurationMin).map
        fun minute => (hour, minute)

/-- The half-open overlap test the loop applies to one appointment:
`slotStartMinutes < aptEndMinutes && slotEndMinutes > aptStartMinutes`. -/
def slotConflict (apt : BookedSlot) (hour minute : Nat) : Bool :=
  let aptStartMinutes := timeToMinutes apt.time
  let aptEndMinutes := aptStartMinutes + apt.duration
  let slotStartMinutes := hour * 60 + minute
  let slotEndMinutes := slotStartMinutes + slotDurationMin
  decide (slotStartMinutes < aptEndMinutes ∧ slotEndMinutes > aptStartMinutes)

/-- `appointments.some(apt => ...)` conflict check for one slot. -/
def hasConflict (apts : List BookedSlot) (hour minute : Nat) : Bool :=
  apts.any fun apt => slotConflict apt hour minute

/-- The `availableSlots` array built by the loop: every enumerated slot
without a conflict, rendered as `HH:MM`. -/
def availableSlots (apts : List BookedSlot) : List String :=
  (slotTimes.filter fun hm => !hasConflict apts hm.1 hm.2).map
    fun hm => fmtTime hm.1 hm.2

/-- The slots the loop drops because of an overlap conflict. -/
def blockedSlots (apts : List BookedSlot) : List String :=
  (slotTimes.filter fun hm => hasConflict apts hm.1 hm.2).map
    fun hm => fmtTime hm.1 hm.2

/-- The full 09:00–17:00 / 30-minute grid (16 slots). -/
def fullGrid : List String :=
  slotTimes.map fun hm => fmtTime hm.1 hm.2

/-- The availability query: appointments of this doctor on this date whose
status is neither cancelled nor no-show, projected to time and duration. -/
def activeAppointmentsFor (store : List Appointment) (doctorId dt : Nat) :
    List BookedSlot :=
  (store.filter fun a =>
    a.doctor == doctorId && a.date == dt && activeStatus a.status).map
    fun a => { time := a.time, duration := a.duration }

/-- Response of the availability handler. -/
inductive AvailabilityResult
  | failure (status : Nat) (message : String)
  | success (availableSlots : List String) (bookedSlots : List (String × Nat))
deriving DecidableEq

/-- The availability handler: a missing `date` query parameter is rejected
with 400 before any appointment query; otherwise the slot computation and
the booked list are produced from the query result. -/
def availabilityHandler (store : List Appointment) (doctorId : Nat)
    (dt : Option Nat) : AvailabilityResult :=
  match dt with
  | none => .failure 400 "Date is required"
  | some d =>
    let apts := activeAppointmentsFor store doctorId d
    .success (availableSlots apts) (apts.map fun a => (a.time, a.duration))

/-! ## The `endTime` virtual of the appointment schema -/

/-- `endTime` virtual: parse the stored `HH:MM` start, add the duration,
and render `floor(endMinutes / 60)` and `endMinutes % 60` two-digit
padded.  The hour component is not reduced modulo 24. -/
def endTime (time : String) (duration : Nat) : String :=
  match splitOnColon time with
  | hours :: minutes :: _ =>
    let startMinutes := parseIntS hours * 60 + parseIntS minutes
    let endMinutes := startMinutes + duration
    let endHours := endMinutes / 60
    let endMins := endMinutes % 60
    pad2 endHours ++ ":" ++ pad2 endMins
  | _ => ""

/-! ## Patient and user documents -/

/-- Entries of the patient `medicalHistory` array. -/
structure MedicalHistoryEntry where
  condition : String
  diagnosedDate : Option Nat
  status : String
  notes : Option String
deriving DecidableEq

/-- Entries of the patient `currentMedications` array. -/
structure Medication where
  name : String
  dosage : String
  frequency : String
  startDate : Nat
  endDate : Option Nat
  prescribedBy : String
  isActive : Bool
deriving DecidableEq

/-- The patient `address` subdocument. -/
structure Address where
  street : String
  city : String
  state : String
  zipCode : String
  country : String
deriving DecidableEq

/-- The patient `emergencyContact` subdocument. -/
structure EmergencyContact where
  name : String
  relationship : String
  phone : String
  email : Option String
deriving DecidableEq

/-- Entries of the patient `allergies` array. -/
structure Allergy where
  allergen : String
  severity : String
  reaction : Option String
deriving DecidableEq

/-- A patient document. -/
structure Patient where
  id : Nat
  firstName : String
  lastName : String
  email : String
  phone : String
  dateOfBirth : Int
  gender : Gender
  address : Address
  emergencyContact : EmergencyContact
  medicalHistory : List MedicalHistoryEntry
  currentMedications : List Medication
  allergies : List Allergy
  bloodType : Option String
  primaryDoctor : Option Nat
  isActive : Bool
deriving DecidableEq

/-- A user document. -/
structure User where
  id : Nat
  username : String
  email : String
  password : String
  firstName : String
  lastName : String
  role : Role
  isActive : Bool
  lastLogin : Option Nat
  profileImage : Option String
deriving DecidableEq

/-! ## Appointment creation (`POST /appointments`) -/

/-- Request body of `POST /appointments` after validation: required
fields of the schema, plus the optional fields the `...req.body` spread
can carry into the new document. -/
structure CreateBody where
  patient : Nat
  doctor : Nat
  aptType : AptType
  status : Option AptStatus
  date : Nat
  time : String
  duration : Nat
  reason : String
  notes : Option String
  symptoms : List String
deriving DecidableEq

/-- The application-level conflict query of the create handler:
an appointment of the same doctor at the same date and the exact same
time string whose status is not cancelled / no-show. -/
def createConflictExists (store : List Appointment) (doctorId dt : Nat)
    (time : String) : Bool :=
  store.any fun a =>
    a.doctor == doctorId && a.date == dt && a.time == time &&
      activeStatus a.status

/-- The storage-level unique index `{ doctor: 1, date: 1, time: 1 }`
(`unique: true`): a save fails with a duplicate-key error when any other
document — of any status — carries the same triple. -/
def uniqueIndexViolation (store : List Appointment) (excludeId : Option Nat)
    (doctorId dt : Nat) (time : String) : Bool :=
  store.any fun a =>
    (match excludeId with
     | none => true
     | some i => a.id != i) &&
    a.doctor == doctorId && a.date == dt && a.time == time

/-- Outcome of the create handler. -/
inductive CreateOutcome
  | patientNotFound
  | doctorNotFound
  | conflict
  | dupKey
  | created (apt : Appointment)
deriving DecidableEq

/-- The document `new Appointment({...req.body, createdBy})` builds. -/
def newAppointment (body : CreateBody) (callerId newId : Nat) : Appointment :=
  { id := newId
    patient := body.patient
    doctor := body.doctor
    aptType := body.aptType
    status := body.status.getD AptStatus.scheduled
    date := body.date
    time := body.time
    duration := body.duration
    reason := body.reason
    notes := body.notes
    symptoms := body.symptoms
    diagnosis := none
    treatment := none
    prescriptions := []
    followUpRequired := false
    followUpDate := none
    createdBy := callerId
    updatedBy := none }

/-- `POST /appointments`: verify the patient, verify the doctor (active,
role doctor or admin), run the exact-triple conflict query, then save.
The save is subject to the storage unique index.  The returned store is
unchanged except on successful creation. -/
def createAppointment (patients : List Patient) (users : List User)
    (store : List Appointment) (body : CreateBody) (callerId newId : Nat) :
    CreateOutcome × List Appointment :=
  match patients.find? fun p => p.id == body.patient && p.isActive with
  | none => (.patientNotFound, store)
  | some _ =>
    match users.find? fun u =>
        u.id == body.doctor && u.isActive &&
          (u.role == Role.doctor || u.role == Role.admin) with
    | none => (.doctorNotFound, store)
    | some _ =>
      if createConflictExists store body.doctor body.date body.time then
        (.conflict, store)
      else if uniqueIndexViolation store none body.doctor body.date body.time then
        (.dupKey, store)
      else
        let apt := newAppointment body callerId newId
        (.created apt, store ++ [apt])

/-! ## Appointment update (`PUT /appointments/:id`) -/

/-- Request body of `PUT /appointments/:id`: every field is optional and
`Object.assign` overwrites only the fields present. -/
structure UpdateBody where
  patient : Option Nat
  doctor : Option Nat
  aptType : Option AptType
  status : Option AptStatus
  date : Option Nat
  time : Option String
  duration : Option Nat
  reason : Option String
  notes : Option String
deriving DecidableEq

/-- `Object.assign(appointment, req.body)` followed by
`appointment.updatedBy = req.user._id`. -/
def assignUpdate (apt : Appointment) (body : UpdateBody) (callerId : Nat) :
    Appointment :=
  { apt with
    patient := body.patient.getD apt.patient
    doctor := body.doctor.getD apt.doctor
    aptType := body.aptType.getD apt.aptType
    status := body.status.getD apt.status
    date := body.date.getD apt.date
    time := body.time.getD apt.time
    duration := body.duration.getD apt.duration
    reason := body.reason.getD apt.reason
    notes := match body.notes with | some n => some n | none => apt.notes
    updatedBy := some callerId }

/-- The update conflict query, run only when the body carries a date,
time, or doctor: another appointment (`_id` excluded) of the effective
doctor at the effective date and exact effective time string, active. -/
def updateConflictExists (store : List Appointment) (aid : Nat)
    (doctorId dt : Nat) (time : String) : Bool :=
  store.any fun a =>
    a.id != aid && a.doctor == doctorId && a.date == dt &&
      a.time == time && activeStatus a.status

/-- Outcome of the update handler. -/
inductive UpdateOutcome
  | notFound
  | conflict
  | dupKey
  | updated (apt : Appointment)
deriving DecidableEq

/-- `PUT /appointments/:id`: find the appointment (any status); when the
body changes date, time, or doctor, run the conflict query against the
effective values; then assign and save (subject to the unique index). -/
def updateAppointment (store : List Appointment) (aid : Nat)
    (body : UpdateBody) (callerId : Nat) : UpdateOutcome × List Appointment :=
  match store.find? fun a => a.id == aid with
  | none => (.notFound, store)
  | some apt =>
    let newDate := body.date.getD apt.date
    let newTime := body.time.getD apt.time
    let newDoctor := body.doctor.getD apt.doctor
    if (body.date.isSome || body.time.isSome || body.doctor.isSome) &&
        updateConflictExists store aid newDoctor newDate newTime then
      (.conflict, store)
    else
      let apt2 := assignUpdate apt body callerId
      if uniqueIndexViolation store (some aid) apt2.doctor apt2.date apt2.time then
        (.dupKey, store)
      else
        (.updated apt2, store.map fun a => if a.id == aid then apt2 else a)

/-! ## Appointment cancellation (`DELETE /appointments/:id`) -/

/-- `DELETE /appointments/:id`: find the appointment (any status), set its
status to cancelled and its `updatedBy` to the caller, and save.  Nothing
is ever removed from the store. -/
def cancelAppointment (store : List Appointment) (aid callerId : Nat) :
    Option (List Appointment) :=
  match store.find? fun a => a.id == aid with
  | none => none
  | some _ =>
    some (store.map fun a =>
      if a.id == aid then
        { a with status := AptStatus.cancelled, updatedBy := some callerId }
      else a)

/-! ## Patient routes -/

/-- `Patient.findOne({ _id: id, isActive: true })` — the read every
non-admin patient path performs. -/
def findActivePatient (store : List Patient) (pid : Nat) : Option Patient :=
  store.find? fun p => p.id == pid && p.isActive

/-- `DELETE /patients/:id`: find the active patient, set `isActive` to
false, and save; 404 (`none`) when no active patient matches. -/
def deletePatient (store : List Patient) (pid : Nat) :
    Option (List Patient) :=
  match findActivePatient store pid with
  | none => none
  | some _ =>
    some (store.map fun p =>
      if p.id == pid && p.isActive then { p with isActive := false } else p)

/-! ## User update (`PUT /users/:id`) -/

/-- Request body of `PUT /users/:id` before sanitization. -/
structure UserUpdateBody where
  username : Option String
  email : Option String
  password : Option String
  firstName : Option String
  lastName : Option String
  role : Option Role
  profileImage : Option String
deriving DecidableEq

/-- The body sanitization of the update handler: non-admins lose any
`role` field (`delete req.body.role`), and `password` is deleted for
every caller (`delete req.body.password`). -/
def sanitizeUserBody (callerRole : Role) (body : UserUpdateBody) :
    UserUpdateBody :=
  let body1 :=
    if callerRole != Role.admin && body.role.isSome then
      { body with role := none }
    else body
  { body1 with password := none }

/-- `Object.assign(user, req.body)` for the sanitized user body. -/
def assignUserUpdate (u : User) (body : UserUpdateBody) : User :=
  { u with
    username := body.username.getD u.username
    email := body.email.getD u.email
    password := body.password.getD u.password
    firstName := body.firstName.getD u.firstName
    lastName := body.lastName.getD u.lastName
    role := body.role.getD u.role
    profileImage :=
      match body.profileImage with | some p => some p | none => u.profileImage }

/-- Outcome of the user update handler. -/
inductive UserUpdateOutcome
  | notFound
  | forbidden
  | emailTaken
  | usernameTaken
  | updated (u : User)
deriving DecidableEq

/-- `PUT /users/:id`: find the active target, check self-or-admin access,
sanitize the body, check email / username uniqueness among other active
users, then assign and save. -/
def updateUser (store : List User) (caller : User) (targetId : Nat)
    (body : UserUpdateBody) : UserUpdateOutcome × List User :=
  match store.find? fun u => u.id == targetId && u.isActive with
  | none => (.notFound, store)
  | some u =>
    if caller.role != Role.admin && caller.id != targetId then
      (.forbidden, store)
    else
      let b := sanitizeUserBody caller.role body
      if b.email.isSome && b.email != some u.email &&
          (store.any fun v =>
            v.email == b.email.getD "" && v.id != targetId && v.isActive) then
        (.emailTaken, store)
      else if b.username.isSome && b.username != some u.username &&
          (store.any fun v =>
            v.username == b.username.getD "" && v.id != targetId && v.isActive) then
        (.usernameTaken, store)
      else
        let u2 := assignUserUpdate u b
        (.updated u2, store.map fun v => if v.id == targetId then u2 else v)

/-! ## Dashboard age distribution (`GET /dashboard/stats`) -/

/-- Milliseconds of the aggregation's year length `365.25 * 24 * 60 * 60
* 1000`, an exact integer. -/
def msPerJulianYear : Int := 31557600000

/-- `$floor { $divide: [ { $subtract: [now, dateOfBirth] },
365.25*24*60*60*1000 ] }` — floor division of the elapsed milliseconds,
as `Int.fdiv` (floor semantics, matching `$floor` of the real quotient
for the positive divisor). -/
def ageOf (nowMs birthMs : Int) : Int :=
  (nowMs - birthMs).fdiv msPerJulianYear

/-- The `$switch` bracket assignment of the age distribution. -/
def ageBracket (nowMs birthMs : Int) : String :=
  let age := ageOf nowMs birthMs
  if age < 18 then "0-17"
  else if age < 35 then "18-34"
  else if age < 50 then "35-49"
  else if age < 65 then "50-64"
  else "65+"

/-! ### Proleptic-Gregorian calendar (embedding of ECMAScript `Date`)

`Date` values subtract as milliseconds since the epoch; for dates at UTC
midnight this is a day count times 86400000.  The civil day count is the
standard Gregorian formula. -/

/-- Gregorian leap-year rule (as in ECMAScript `Date`). -/
def isLeapYear (y : Nat) : Bool :=
  y % 4 == 0 && (y % 100 != 0 || y % 400 == 0)

/-- Days in the months strictly before month `m` of a common year. -/
def daysBeforeMonth (m : Nat) : Nat :=
  match m with
  | 1 => 0
  | 2 => 31
  | 3 => 59
  | 4 => 90
  | 5 => 120
  | 6 => 151
  | 7 => 181
  | 8 => 212
  | 9 => 243
  | 10 => 273
  | 11 => 304
  | 12 => 334
  | _ => 0

/-- Zero-based day-of-year of a calendar date. -/
def dayOfYear (y m d : Nat) : Nat :=
  daysBeforeMonth m + (if 2 < m && isLeapYear y then 1 else 0) + (d - 1)

/-- Days from 0001-01-01 to the given date (proleptic Gregorian). -/
def daysFromCivil (y m d : Nat) : Nat :=
  365 * (y - 1) + (y - 1) / 4 - (y - 1) / 100 + (y - 1) / 400 + dayOfYear y m d

/-- The millisecond timestamp of a date's UTC midnight, on the day scale
anchored at 0001-01-01. -/
def msOfDate (y m d : Nat) : Int :=
  (daysFromCivil y m d : Int) * 86400000

/-! ## Store invariant enforced by the unique index -/

/-- No two appointment documents — of any status — share the same
(doctor, date, time) triple. -/
abbrev NoDupTriples (store : List Appointment) : Prop :=
  store.Pairwise fun a b =>
    ¬(a.doctor = b.doctor ∧ a.date = b.date ∧ a.time = b.time)

/-- Pairwise-distinct document ids (the `_id` primary key). -/
abbrev DistinctIds (store : List Appointment) : Prop :=
  store.Pairwise fun a b => a.id ≠ b.id

/-! ## Concrete fixtures used by witnesses and scenarios -/

/-- A registered active patient. -/
def demoPatient : Patient :=
  { id := 1, firstName := "Ada", lastName := "Lovelace"
    email := "ada@example.com", phone := "555-0100", dateOfBirth := 0
    gender := Gender.female
    address := { street := "1 Main", city := "Springfield", state := "IL"
                 zipCode := "62701", country := "United States" }
    emergencyContact := { name := "Grace", relationship := "friend"
                          phone := "555-0101", email := none }
    medicalHistory := [], currentMedications := [], allergies := []
    bloodType := none, primaryDoctor := none, isActive := true }

/-- An active doctor-role user. -/
def demoDoctor : User :=
  { id := 2, username := "drdoe", email := "doc@example.com"
    password := "hash1", firstName := "Jo", lastName := "Doe"
    role := Role.doctor, isActive := true, lastLogin := none
    profileImage := none }

/-- An active nurse-role user. -/
def demoNurse : User :=
  { id := 3, username := "nurse1", email := "nurse@example.com"
    password := "hash2", firstName := "Sam", lastName := "Lee"
    role := Role.nurse, isActive := true, lastLogin := none
    profileImage := none }

/-- A well-formed creation body for doctor 2 at date 20240201, 10:00. -/
def demoBody : CreateBody :=
  { patient := 1, doctor := 2, aptType := AptType.checkup, status := none
    date := 20240201, time := "10:00", duration := 30
    reason := "checkup", notes := none, symptoms := [] }

/-- The patient collection of the demo. -/
def demoPatients : List Patient := [demoPatient]

/-- The user collection of the demo. -/
def demoUsers : List User := [demoDoctor, demoNurse]

/-- The appointment the demo body creates (id 100, created by user 3). -/
def demoAppointment : Appointment := newAppointment demoBody 3 100

/-- An appointment store holding the single demo appointment. -/
def demoStore : List Appointment := [demoAppointment]

/-- The demo appointment after cancellation by user 3. -/
def demoCancelled : Appointment :=
  { demoAppointment with status := AptStatus.cancelled, updatedBy := some 3 }

/-- A second store: the demo appointment plus an extra cancelled document
(different id).  Its active projection for doctor 2 on the demo date is
the same as that of `demoStore`. -/
def demoStore2 : List Appointment :=
  [demoAppointment, { demoCancelled with id := 101 }]

/-- An update body that tries to escalate role and change the password. -/
def demoEscalationBody : UserUpdateBody :=
  { username := none, email := none, password := some "newpass"
    firstName := none, lastName := none, role := some Role.admin
    profileImage := none }

/-! ## Theorems -/

/-- C9: a request to the availability endpoint that omits the `date`
query parameter is answered with the 400 failure envelope carrying the
message `Date is required`, for every store — the handler never reaches
the appointment query. -/
theorem availability_requires_date (store : List Appointment) (doctorId : Nat) :
    availabilityHandler store doctorId none =
      AvailabilityResult.failure 400 "Date is required" :=
  rfl

/-- C8: the availability computation is deterministic and reads no state
beyond the appointment data selected for the doctor and date — any two
stores with the same active projection yield the same response, and a
repeated invocation yields an identical response. -/
theorem availability_deterministic (s1 s2 : List Appointment)
    (doctorId dt : Nat)
    (h : activeAppointmentsFor s1 doctorId dt =
      activeAppointmentsFor s2 doctorId dt) :
    availabilityHandler s1 doctorId (some dt) =
        availabilityHandler s2 doctorId (some dt) ∧
      availabilityHandler s1 doctorId (some dt) =
        availabilityHandler s1 doctorId (some dt) := by
  refine ⟨?_, rfl⟩
  simp only [availabilityHandler, h]

/-- Witness for C8: a store with an extra cancelled document produces the
identical availability response. -/
theorem availability_deterministic_witness :
    availabilityHandler demoStore 2 (some 20240201) =
      availabilityHandler demoStore2 2 (some 20240201) :=
  (availability_deterministic demoStore demoStore2 2 20240201 (by decide)).1

/-- C6: deleting an active patient soft-deletes it: the store keeps the
same number of records, the deleted record is exactly the old one with
`isActive := false` (no other stored field altered), every other record
is untouched, and a subsequent GET by id (which filters on
`isActive: true`) finds nothing. -/
theorem deletePatient_soft (store : List Patient) (pid : Nat) (p : Patient)
    (hmem : p ∈ store) (hid : p.id = pid) (hact : p.isActive = true) :
    ∃ s2, deletePatient store pid = some s2 ∧
      s2.length = store.length ∧
      { p with isActive := false } ∈ s2 ∧
      (∀ q ∈ store, q.id ≠ pid → q ∈ s2) ∧
      findActivePatient s2 pid = none := by
  have hfind : (findActivePatient store pid).isSome := by
    rw [findActivePatient, List.find?_isSome]
    exact ⟨p, hmem, by simp [hid, hact]⟩
  obtain ⟨q, hq⟩ := Option.isSome_iff_exists.mp hfind
  refine ⟨store.map fun r =>
    if r.id == pid && r.isActive then { r with isActive := false } else r,
    ?_, by simp, ?_, ?_, ?_⟩
  · rw [deletePatient, hq]
  · rw [List.mem_map]
    exact ⟨p, hmem, by simp [hid, hact]⟩
  · intro r hr hrid
    rw [List.mem_map]
    refine ⟨r, hr, ?_⟩
    simp [hrid]
  · rw [findActivePatient, List.find?_eq_none]
    intro x hx
    rw [List.mem_map] at hx
    obtain ⟨r, _, rfl⟩ := hx
    by_cases hc : (r.id == pid && r.isActive) = true
    · simp [hc]
    · simp only [if_neg hc]
      simpa using hc

/-- Witness for C6: deleting the demo patient. -/
theorem deletePatient_soft_witness :
    ∃ s2, deletePatient demoPatients 1 = some s2 ∧
      s2.length = demoPatients.length ∧
      { demoPatient with isActive := false } ∈ s2 ∧
      (∀ q ∈ demoPatients, q.id ≠ 1 → q ∈ s2) ∧
      findActivePatient s2 1 = none :=
  deletePatient_soft demoPatients 1 demoPatient (by decide) (by decide)
    (by decide)

/-- C7: cancelling an appointment never removes the document: whatever the
prior status, the store keeps its length, the cancelled record is exactly
the old one with `status := cancelled` and `updatedBy := caller` (every
other field — patient, doctor, type, date, time, duration, reason, notes,
prescriptions, createdBy, ... — unchanged), and other records are
untouched. -/
theorem cancelAppointment_soft (store : List Appointment)
    (aid callerId : Nat) (apt : Appointment)
    (hmem : apt ∈ store) (hid : apt.id = aid) :
    ∃ s2, cancelAppointment store aid callerId = some s2 ∧
      s2.length = store.length ∧
      { apt with status := AptStatus.cancelled, updatedBy := some callerId }
        ∈ s2 ∧
      (∀ b ∈ store, b.id ≠ aid → b ∈ s2) := by
  have hfind : (store.find? fun a => a.id == aid).isSome := by
    rw [List.find?_isSome]
    exact ⟨apt, hmem, by simp [hid]⟩
  obtain ⟨q, hq⟩ := Option.isSome_iff_exists.mp hfind
  refine ⟨store.map fun a =>
    if a.id == aid then
      { a with status := AptStatus.cancelled, updatedBy := some callerId }
    else a, ?_, by simp, ?_, ?_⟩
  · rw [cancelAppointment, hq]
  · rw [List.mem_map]
    exact ⟨apt, hmem, by simp [hid]⟩
  · intro b hb hbid
    rw [List.mem_map]
    refine ⟨b, hb, ?_⟩
    simp [hbid]

/-- Witness for C7: cancelling the demo appointment. -/
theorem cancelAppointment_soft_witness :
    ∃ s2, cancelAppointment demoStore 100 3 = some s2 ∧
      s2.length = demoStore.length ∧
      demoCancelled ∈ s2 ∧
      (∀ b ∈ demoStore, b.id ≠ 100 → b ∈ s2) :=
  cancelAppointment_soft demoStore 100 3 demoAppointment (by decide)
    (by decide)

/-- C10: a successful `PUT /users/:id` never changes the stored password
hash — the `password` field is deleted from every body — and a non-admin
caller cannot change the target's role, because any `role` field is also
deleted from the body. -/
theorem updateUser_sanitizes (store : List User) (caller : User)
    (targetId : Nat) (body : UserUpdateBody) (u u2 : User) (s2 : List User)
    (hfind : (store.find? fun v => v.id == targetId && v.isActive) = some u)
    (hupd : updateUser store caller targetId body = (.updated u2, s2)) :
    u2.password = u.password ∧
      (caller.role ≠ Role.admin → u2.role = u.role) := by
  unfold updateUser at hupd
  rw [hfind] at hupd
  simp only [] at hupd
  split_ifs at hupd <;> simp_all
  obtain ⟨h1, -⟩ := hupd
  subst h1
  refine ⟨rfl, ?_⟩
  intro h
  simp only [assignUserUpdate, sanitizeUserBody]
  have hb : (caller.role != Role.admin) = true := by simp [bne_iff_ne, h]
  cases hbr : body.role <;> simp [hbr, hb]

/-- Witness for C10: the demo nurse updating their own profile with a
body carrying a new password and an admin role keeps both fields. -/
theorem updateUser_sanitizes_witness :
    demoNurse.password = demoNurse.password ∧
      (demoNurse.role ≠ Role.admin → demoNurse.role = demoNurse.role) :=
  updateUser_sanitizes [demoNurse] demoNurse 3 demoEscalationBody demoNurse
    demoNurse [demoNurse] (by decide) (by decide)

/-- Splitting a separator-free prefix followed by the separator yields
that prefix as the first piece. -/
theorem splitCharsOn_append (sep : Char) (a b : List Char) (ha : sep ∉ a) :
    splitCharsOn sep (a ++ sep :: b) = a :: splitCharsOn sep b := by
  induction a with
  | nil => simp [splitCharsOn]
  | cons c cs ih =>
    have hc : ¬c = sep := fun h => ha (h ▸ List.mem_cons_self c cs)
    have hcs : sep ∉ cs := fun h => ha (List.mem_cons_of_mem c h)
    rw [List.cons_append, splitCharsOn, if_neg hc, ih hcs]

/-- Splitting a separator-free list yields the list itself as the single
piece. -/
theorem splitCharsOn_no_sep (sep : Char) (l : List Char) (h : sep ∉ l) :
    splitCharsOn sep l = [l] := by
  induction l with
  | nil => rfl
  | cons c cs ih =>
    have hc : ¬c = sep := fun hcc => h (hcc ▸ List.mem_cons_self c cs)
    have hcs : sep ∉ cs := fun hm => h (List.mem_cons_of_mem c hm)
    rw [splitCharsOn, if_neg hc, ih hcs]

/-- The two-digit-padded rendering of any number below 100 contains no
colon. -/
theorem pad2_no_colon : ∀ n < 100, ':' ∉ (pad2 n).data := by decide

/-- `parseInt` inverts the two-digit-padded rendering below 100. -/
theorem parseIntS_pad2 : ∀ n < 100, parseIntS (pad2 n) = n := by decide

/-- Rebuilding a string from its character list is the identity. -/
theorem stringMk_data (s : String) : String.mk s.data = s := rfl

/-- The character list of an `HH:MM` rendering splits into its padded
components. -/
theorem fmtTime_data (hour minute : Nat) :
    (fmtTime hour minute).data =
      (pad2 hour).data ++ ':' :: (pad2 minute).data := by
  simp [fmtTime, String.data_append]

/-- Parsing back an `HH:MM` rendering of components below 100 recovers
the minute count. -/
theorem timeToMinutes_fmtTime (hour minute : Nat) (hh : hour < 100)
    (hm : minute < 100) :
    timeToMinutes (fmtTime hour minute) = hour * 60 + minute := by
  rw [timeToMinutes, splitOnColon, fmtTime_data,
    splitCharsOn_append ':' _ _ (pad2_no_colon hour hh),
    splitCharsOn_no_sep ':' _ (pad2_no_colon minute hm)]
  simp [stringMk_data, parseIntS_pad2 hour hh, parseIntS_pad2 minute hm]

/-- `split(':')` of an `HH:MM` rendering yields the padded components. -/
theorem splitOnColon_fmtTime (hour minute : Nat) (hh : hour < 100)
    (hm : minute < 100) :
    splitOnColon (fmtTime hour minute) = [pad2 hour, pad2 minute] := by
  rw [splitOnColon, fmtTime_data,
    splitCharsOn_append ':' _ _ (pad2_no_colon hour hh),
    splitCharsOn_no_sep ':' _ (pad2_no_colon minute hm)]
  simp [stringMk_data]

/-- The `endTime` virtual on an `HH:MM` start renders the total minute
count with hours `floor(total / 60)` — not reduced modulo 24. -/
theorem endTime_fmtTime (hour minute d : Nat) (hh : hour < 100)
    (hm : minute < 100) :
    endTime (fmtTime hour minute) d =
      fmtTime ((hour * 60 + minute + d) / 60) ((hour * 60 + minute + d) % 60) := by
  rw [endTime, splitOnColon_fmtTime hour minute hh hm]
  simp [fmtTime, parseIntS_pad2 hour hh, parseIntS_pad2 minute hm]

/-- C5 (amended): for every valid start time and duration, the derived
end time encodes exactly `start + duration` minutes — parsing it back
yields the unwrapped total, so hours are NOT reduced modulo 24 (an
appointment starting at 23:30 with duration 60 has end time "24:30"). -/
theorem endTime_unwrapped (hour minute d : Nat) (hh : hour < 24)
    (hm : minute < 60) (hd : d ≤ 480) :
    timeToMinutes (endTime (fmtTime hour minute) d) =
      hour * 60 + minute + d := by
  rw [endTime_fmtTime hour minute d (by omega) (by omega),
    timeToMinutes_fmtTime _ _ (by omega) (by omega)]
  omega

/-- Counterexample for C5 as stated: the end time of an appointment
starting at 23:30 with duration 60 is "24:30", not the wrapped "00:30". -/
theorem endTime_no_wrap_counterexample :
    endTime "23:30" 60 = "24:30" ∧ endTime "23:30" 60 ≠ "00:30" := by
  decide

/-- Witness for C5 (amended) at the 23:30 + 60 boundary input. -/
theorem endTime_unwrapped_witness :
    timeToMinutes (endTime (fmtTime 23 30) 60) = 23 * 60 + 30 + 60 :=
  endTime_unwrapped 23 30 60 (by decide) (by decide) (by decide)

/-- Elapsed spans below 6574.5 days floor to an age below 18. -/
theorem ageBracket_young (nowMs birthMs : Int)
    (h : nowMs - birthMs < 568036800000) :
    ageBracket nowMs birthMs = "0-17" := by
  unfold ageBracket ageOf msPerJulianYear
  rw [Int.fdiv_eq_ediv _ (by decide)]
  have hlt : (nowMs - birthMs) / 31557600000 < 18 := by omega
  simp [hlt]

/-- Elapsed spans from 6574.5 days up to 35 years floor into 18..34. -/
theorem ageBracket_18to34 (nowMs birthMs : Int)
    (h1 : 568036800000 ≤ nowMs - birthMs)
    (h2 : nowMs - birthMs < 1104516000000) :
    ageBracket nowMs birthMs = "18-34" := by
  unfold ageBracket ageOf msPerJulianYear
  rw [Int.fdiv_eq_ediv _ (by decide)]
  have ha : ¬(nowMs - birthMs) / 31557600000 < 18 := by omega
  have hb : (nowMs - birthMs) / 31557600000 < 35 := by omega
  simp [ha, hb]

/-- C4 (amended): a patient whose birthDate is exactly 18 calendar years
before now is bracketed "18-34" when the span contains 6575 days (five
leap days); when it contains at most 6574 days (four or fewer leap days)
the computed age floors to 17 and the patient is bracketed "0-17". -/
theorem ageBracket_exact_18_years (y m d : Nat) (_h18 : 18 ≤ y) :
    (msOfDate y m d - msOfDate (y - 18) m d ≤ 6574 * 86400000 →
        ageBracket (msOfDate y m d) (msOfDate (y - 18) m d) = "0-17") ∧
      (msOfDate y m d - msOfDate (y - 18) m d = 6575 * 86400000 →
        ageBracket (msOfDate y m d) (msOfDate (y - 18) m d) = "18-34") := by
  constructor
  · intro h
    exact ageBracket_young _ _ (by omega)
  · intro h
    exact ageBracket_18to34 _ _ (by omega) (by omega)

/-- Counterexample for C4 as stated: on 2024-01-01, a patient born
exactly 18 calendar years earlier (2006-01-01 — a 6574-day span with four
leap days) is counted in "0-17", not "18-34". -/
theorem ageBracket_18th_birthday_counterexample :
    ageBracket (msOfDate 2024 1 1) (msOfDate (2024 - 18) 1 1) = "0-17" ∧
      ("0-17" : String) ≠ "18-34" := by decide

/-- Witness for C4 (amended): on 2024-03-01 the exactly-18-years span
contains 6575 days and the bracket is "18-34". -/
theorem ageBracket_exact_18_years_witness :
    ageBracket (msOfDate 2024 3 1) (msOfDate (2024 - 18) 3 1) = "18-34" :=
  (ageBracket_exact_18_years 2024 3 1 (by decide)).2 (by decide)

/-- The available list is a sublist of the full grid. -/
theorem availableSlots_sublist_fullGrid (apts : List BookedSlot) :
    (availableSlots apts).Sublist fullGrid :=
  List.Sublist.map _ (List.filter_sublist _)

/-- The 16 grid strings are in strictly ascending time order. -/
theorem fullGrid_sorted :
    fullGrid.Pairwise (fun s t => timeToMinutes s < timeToMinutes t) := by
  decide

/-- C1: for every store, doctor, and date, the availability computation
returns slots in strictly ascending order; together with the
overlap-blocked slots they exactly cover the 09:00-17:00 30-minute grid;
and no returned slot's half-open 30-minute interval overlaps any active
appointment interval, under the test
`slotStart < aptEnd && slotEnd > aptStart`. -/
theorem availability_correct (store : List Appointment) (doctorId dt : Nat) :
    (availableSlots (activeAppointmentsFor store doctorId dt)).Pairwise
        (fun s t => timeToMinutes s < timeToMinutes t) ∧
      (∀ s, s ∈ fullGrid ↔
        s ∈ availableSlots (activeAppointmentsFor store doctorId dt) ∨
          s ∈ blockedSlots (activeAppointmentsFor store doctorId dt)) ∧
      (∀ s ∈ availableSlots (activeAppointmentsFor store doctorId dt),
        ∃ hour minute,
          (hour, minute) ∈ slotTimes ∧ s = fmtTime hour minute ∧
          ∀ b ∈ activeAppointmentsFor store doctorId dt,
            ¬(hour * 60 + minute < timeToMinutes b.time + b.duration ∧
              hour * 60 + minute + slotDurationMin > timeToMinutes b.time)) ∧
      fullGrid.length = 16 := by
  refine ⟨List.Pairwise.sublist (availableSlots_sublist_fullGrid _)
    fullGrid_sorted, ?_, ?_, by decide⟩
  · intro s
    simp only [fullGrid, availableSlots, blockedSlots, List.mem_map,
      List.mem_filter]
    constructor
    · rintro ⟨hm, hmem, rfl⟩
      cases hcf : hasConflict (activeAppointmentsFor store doctorId dt) hm.1 hm.2
      · exact Or.inl ⟨hm, ⟨hmem, by simp [hcf]⟩, rfl⟩
      · exact Or.inr ⟨hm, ⟨hmem, hcf⟩, rfl⟩
    · rintro (⟨hm, ⟨hmem, _⟩, rfl⟩ | ⟨hm, ⟨hmem, _⟩, rfl⟩) <;>
        exact ⟨hm, hmem, rfl⟩
  · intro s hs
    simp only [availableSlots, List.mem_map, List.mem_filter] at hs
    obtain ⟨⟨hour, minute⟩, ⟨hmem, hc⟩, rfl⟩ := hs
    refine ⟨hour, minute, hmem, rfl, ?_⟩
    intro b hb hover
    rw [Bool.not_eq_true'] at hc
    rw [hasConflict, List.any_eq_false] at hc
    have hcb := hc b hb
    simp only [slotConflict, decide_eq_true_eq] at hcb
    exact hcb hover

/-- Witness for C1: in the demo store, the 09:00 slot lands on one side
of the partition of the full grid. -/
theorem availability_correct_witness :
    "09:00" ∈ availableSlots (activeAppointmentsFor demoStore 2 20240201) ∨
      "09:00" ∈ blockedSlots (activeAppointmentsFor demoStore 2 20240201) :=
  ((availability_correct demoStore 2 20240201).2.1 "09:00").mp (by decide)

/-- Propositional reading of the create conflict query. -/
theorem createConflictExists_iff (store : List Appointment)
    (doc dt : Nat) (t : String) :
    createConflictExists store doc dt t = true ↔
      ∃ a ∈ store, a.doctor = doc ∧ a.date = dt ∧ a.time = t ∧
        activeStatus a.status = true := by
  simp [createConflictExists, List.any_eq_true, Bool.and_eq_true, beq_iff_eq,
    and_assoc]

/-- Propositional reading of the update conflict query. -/
theorem updateConflictExists_iff (store : List Appointment)
    (aid doc dt : Nat) (t : String) :
    updateConflictExists store aid doc dt t = true ↔
      ∃ a ∈ store, a.id ≠ aid ∧ a.doctor = doc ∧ a.date = dt ∧ a.time = t ∧
        activeStatus a.status = true := by
  simp [updateConflictExists, List.any_eq_true, Bool.and_eq_true, beq_iff_eq,
    bne_iff_ne, and_assoc]

/-- C2: the create and update guards reject with the Conflict response —
leaving the store unwritten — exactly when another appointment of the
same doctor, same date, and the exact same time string is active
(excluding, on update, the appointment being updated); a candidate whose
start time string differs from every such appointment is never rejected
by this guard, however the duration intervals overlap. -/
theorem conflict_guard_exact_time :
    (∀ (patients : List Patient) (users : List User)
        (store : List Appointment) (body : CreateBody) (callerId newId : Nat),
      (patients.find? fun p => p.id == body.patient && p.isActive).isSome →
      (users.find? fun u => u.id == body.doctor && u.isActive &&
        (u.role == Role.doctor || u.role == Role.admin)).isSome →
      (((createAppointment patients users store body callerId newId).1 =
          CreateOutcome.conflict ↔
        ∃ a ∈ store, a.doctor = body.doctor ∧ a.date = body.date ∧
          a.time = body.time ∧ activeStatus a.status = true) ∧
       ((createAppointment patients users store body callerId newId).1 =
          CreateOutcome.conflict →
        (createAppointment patients users store body callerId newId).2 =
          store) ∧
       ((∀ a ∈ store, activeStatus a.status = true → a.doctor = body.doctor →
          a.date = body.date → a.time ≠ body.time) →
        (createAppointment patients users store body callerId newId).1 ≠
          CreateOutcome.conflict))) ∧
    (∀ (store : List Appointment) (aid : Nat) (body : UpdateBody)
        (callerId : Nat) (apt : Appointment),
      (store.find? fun a => a.id == aid) = some apt →
      (((updateAppointment store aid body callerId).1 =
          UpdateOutcome.conflict ↔
        ((body.date.isSome = true ∨ body.time.isSome = true ∨
            body.doctor.isSome = true) ∧
          ∃ a ∈ store, a.id ≠ aid ∧ a.doctor = body.doctor.getD apt.doctor ∧
            a.date = body.date.getD apt.date ∧
            a.time = body.time.getD apt.time ∧
            activeStatus a.status = true)) ∧
       ((updateAppointment store aid body callerId).1 =
          UpdateOutcome.conflict →
        (updateAppointment store aid body callerId).2 = store))) := by
  constructor
  · intro patients users store body callerId newId hp hd
    obtain ⟨pu, hpu⟩ := Option.isSome_iff_exists.mp hp
    obtain ⟨du, hdu⟩ := Option.isSome_iff_exists.mp hd
    by_cases hc : createConflictExists store body.doctor body.date body.time =
      true
    · have hres : createAppointment patients users store body callerId newId =
          (CreateOutcome.conflict, store) := by
        unfold createAppointment
        rw [hpu, hdu]
        simp [hc]
      rw [hres]
      refine ⟨⟨fun _ => (createConflictExists_iff _ _ _ _).mp hc, fun _ => rfl⟩,
        fun _ => rfl, ?_⟩
      intro hno
      obtain ⟨a, hma, hdoc, hdt, htime, hact⟩ :=
        (createConflictExists_iff _ _ _ _).mp hc
      exact absurd htime (hno a hma hact hdoc hdt)
    · have hres1 : (createAppointment patients users store body callerId
          newId).1 ≠ CreateOutcome.conflict := by
        unfold createAppointment
        rw [hpu, hdu]
        simp only [Bool.not_eq_true] at hc
        simp only [hc]
        by_cases hu : uniqueIndexViolation store none body.doctor body.date
            body.time = true
        · simp [hu]
        · simp only [Bool.not_eq_true] at hu
          simp [hu]
      refine ⟨⟨fun h => absurd h hres1, fun hex => ?_⟩,
        fun h => absurd h hres1, fun _ => hres1⟩
      exact absurd ((createConflictExists_iff _ _ _ _).mpr hex) hc
  · intro store aid body callerId apt hfind
    by_cases hpresent : (body.date.isSome || body.time.isSome ||
        body.doctor.isSome) = true
    · by_cases hc : updateConflictExists store aid
          (body.doctor.getD apt.doctor) (body.date.getD apt.date)
          (body.time.getD apt.time) = true
      · have hres : updateAppointment store aid body callerId =
            (UpdateOutcome.conflict, store) := by
          unfold updateAppointment
          rw [hfind]
          simp [hpresent, hc]
        rw [hres]
        refine ⟨⟨fun _ => ?_, fun _ => rfl⟩, fun _ => rfl⟩
        refine ⟨?_, (updateConflictExists_iff _ _ _ _ _).mp hc⟩
        simpa [Bool.or_eq_true, or_assoc] using hpresent
      · have hres1 : (updateAppointment store aid body callerId).1 ≠
            UpdateOutcome.conflict := by
          unfold updateAppointment
          rw [hfind]
          simp only [Bool.not_eq_true] at hc
          simp only [hc, Bool.and_false]
          by_cases hu : uniqueIndexViolation store (some aid)
              (assignUpdate apt body callerId).doctor
              (assignUpdate apt body callerId).date
              (assignUpdate apt body callerId).time = true
          · simp [hu]
          · simp only [Bool.not_eq_true] at hu
            simp [hu]
        refine ⟨⟨fun h => absurd h hres1, fun hex => ?_⟩,
          fun h => absurd h hres1⟩
        exact absurd ((updateConflictExists_iff _ _ _ _ _).mpr hex.2) hc
    · have hres1 : (updateAppointment store aid body callerId).1 ≠
          UpdateOutcome.conflict := by
        unfold updateAppointment
        rw [hfind]
        simp only [Bool.not_eq_true] at hpresent
        simp only [hpresent, Bool.false_and]
        by_cases hu : uniqueIndexViolation store (some aid)
            (assignUpdate apt body callerId).doctor
            (assignUpdate apt body callerId).date
            (assignUpdate apt body callerId).time = true
        · simp [hu]
        · simp only [Bool.not_eq_true] at hu
          simp [hu]
      refine ⟨⟨fun h => absurd h hres1, fun hex => ?_⟩,
        fun h => absurd h hres1⟩
      rcases hex.1 with h1 | h1 | h1 <;>
        simp [h1] at hpresent

/-- Witness for C2: creating the demo body against a store already
holding an active appointment at the exact same (doctor, date, time) is
rejected by the guard. -/
theorem conflict_guard_exact_time_witness :
    (createAppointment demoPatients demoUsers demoStore demoBody 3 101).1 =
      CreateOutcome.conflict :=
  (conflict_guard_exact_time.1 demoPatients demoUsers demoStore demoBody 3 101
    (by decide) (by decide)).1.mpr (by decide)

/-- Symmetry of the shared-triple relation. -/
theorem tripleEq_symm {a b : Appointment}
    (h : a.doctor = b.doctor ∧ a.date = b.date ∧ a.time = b.time) :
    b.doctor = a.doctor ∧ b.date = a.date ∧ b.time = a.time :=
  ⟨h.1.symm, h.2.1.symm, h.2.2.symm⟩

/-- C3: the storage unique index on (doctor, date, time) holds across all
statuses: create, cancel, and update each preserve the no-duplicate-triple
invariant; and in the divergence scenario — create at (doctor 2,
2024-02-01, 10:00), cancel it, create again at the same triple — the
second create is rejected by the storage constraint (duplicate key) even
though the application-level conflict check, which excludes cancelled
documents, finds no conflict. -/
theorem unique_index_invariant :
    (∀ (patients : List Patient) (users : List User)
        (store : List Appointment) (body : CreateBody) (callerId newId : Nat),
      NoDupTriples store →
      NoDupTriples
        (createAppointment patients users store body callerId newId).2) ∧
    (∀ (store : List Appointment) (aid callerId : Nat)
        (s2 : List Appointment),
      NoDupTriples store → cancelAppointment store aid callerId = some s2 →
      NoDupTriples s2) ∧
    (∀ (store : List Appointment) (aid : Nat) (body : UpdateBody)
        (callerId : Nat),
      NoDupTriples store → DistinctIds store →
      NoDupTriples (updateAppointment store aid body callerId).2) ∧
    (createAppointment demoPatients demoUsers [] demoBody 3 100 =
        (CreateOutcome.created demoAppointment, [demoAppointment]) ∧
      cancelAppointment [demoAppointment] 100 3 = some [demoCancelled] ∧
      (createAppointment demoPatients demoUsers [demoCancelled] demoBody 3
          101).1 = CreateOutcome.dupKey ∧
      createConflictExists [demoCancelled] demoBody.doctor demoBody.date
        demoBody.time = false) := by
  refine ⟨?_, ?_, ?_, by decide⟩
  · intro patients users store body callerId newId h
    unfold createAppointment
    split
    · exact h
    · split
      · exact h
      · split
        · exact h
        · split
          · exact h
          · rename_i hc huniq
            rw [Bool.not_eq_true] at huniq
            simp only [uniqueIndexViolation, List.any_eq_false,
              Bool.and_eq_true, beq_iff_eq, not_and, true_and,
              and_imp] at huniq
            refine List.pairwise_append.mpr
              ⟨h, List.pairwise_singleton _ _, ?_⟩
            intro a ha b hb
            rw [List.mem_singleton] at hb
            subst hb
            intro hcon
            dsimp only [newAppointment] at hcon
            exact huniq a ha hcon.1 hcon.2.1 hcon.2.2
  · intro store aid callerId s2 h hcan
    unfold cancelAppointment at hcan
    cases hfind : store.find? fun a => a.id == aid with
    | none => rw [hfind] at hcan; cases hcan
    | some q =>
      rw [hfind] at hcan
      injection hcan with hs2
      subst hs2
      refine List.pairwise_map.mpr ?_
      refine List.Pairwise.imp ?_ h
      intro a b hab hcon
      apply hab
      by_cases ha : (a.id == aid) = true <;>
        by_cases hb2 : (b.id == aid) = true
      · rw [if_pos ha, if_pos hb2] at hcon
        exact ⟨hcon.1, hcon.2.1, hcon.2.2⟩
      · rw [if_pos ha, if_neg hb2] at hcon
        exact ⟨hcon.1, hcon.2.1, hcon.2.2⟩
      · rw [if_neg ha, if_pos hb2] at hcon
        exact ⟨hcon.1, hcon.2.1, hcon.2.2⟩
      · rw [if_neg ha, if_neg hb2] at hcon
        exact hcon
  · intro store aid body callerId h hid
    unfold updateAppointment
    split
    · exact h
    · rename_i apt hfind
      dsimp only
      split
      · exact h
      · split
        · exact h
        · rename_i hguard huniq
          rw [Bool.not_eq_true] at huniq
          simp only [uniqueIndexViolation, List.any_eq_false,
            Bool.and_eq_true, bne_iff_ne, beq_iff_eq, not_and,
            and_imp] at huniq
          refine List.pairwise_map.mpr ?_
          refine List.Pairwise.imp_of_mem ?_ (h.and hid)
          intro a b hma hmb hab
          obtain ⟨hRab, hIdab⟩ := hab
          by_cases ha : (a.id == aid) = true <;>
            by_cases hb : (b.id == aid) = true
          · rw [beq_iff_eq] at ha hb
            exact absurd (ha.trans hb.symm) hIdab
          · rw [if_pos ha, if_neg hb]
            rw [beq_iff_eq] at ha
            have hbne : b.id ≠ aid := fun hbid => hIdab (by rw [ha, hbid])
            intro hcon
            have hsym := tripleEq_symm hcon
            exact huniq b hmb hbne hsym.1 hsym.2.1 hsym.2.2
          · rw [if_neg ha, if_pos hb]
            rw [beq_iff_eq] at hb
            have hane : a.id ≠ aid := fun haid => hIdab (by rw [haid, hb])
            intro hcon
            exact huniq a hma hane hcon.1 hcon.2.1 hcon.2.2
          · rw [if_neg ha, if_neg hb]
            exact hRab

/-- Witness for C3: a create against the store holding only the cancelled
demo appointment preserves the no-duplicate-triple invariant. -/
theorem unique_index_invariant_witness :
    NoDupTriples
      (createAppointment demoPatients demoUsers [demoCancelled] demoBody 3
        101).2 :=
  unique_index_invariant.1 demoPatients demoUsers [demoCancelled] demoBody 3
    101 (by decide)
